import Mathlib

/-!
Verification of the wgpu_sandbox renderer core against its specification.

The Rust sources are embedded shallowly over an arbitrary field `K`
(instantiated at `ℚ` for concrete evaluations and at `ℝ` where a magnitude
is stated).  Floating-point numbers are idealised as exact field elements;
the trigonometric and square-root routines of the `f32` library are passed
in as explicit function parameters (`FloatOps`), so every definition stays
computable and each theorem states which of their algebraic properties it
uses.
-/

namespace WgpuSandbox

/-- A 3-component vector, mirroring `cgmath::Vector3<f32>` (also used for
`cgmath::Point3<f32>`, which has the same components). -/
@[ext]
structure Vec3 (K : Type) where
  x : K
  y : K
  z : K
deriving DecidableEq

/-- A 4-component vector, mirroring `cgmath::Vector4<f32>`. -/
@[ext]
structure Vec4 (K : Type) where
  x : K
  y : K
  z : K
  w : K
deriving DecidableEq

/-- A 3x3 matrix stored as three columns, mirroring `cgmath::Matrix3<f32>`. -/
@[ext]
structure Mat3 (K : Type) where
  cx : Vec3 K
  cy : Vec3 K
  cz : Vec3 K
deriving DecidableEq

/-- A 4x4 matrix stored as four columns, mirroring `cgmath::Matrix4<f32>`. -/
@[ext]
structure Mat4 (K : Type) where
  cx : Vec4 K
  cy : Vec4 K
  cz : Vec4 K
  cw : Vec4 K
deriving DecidableEq

variable {K : Type} [Field K]

/-- Componentwise vector addition (`cgmath` vector `+`). -/
def Vec3.add (a b : Vec3 K) : Vec3 K :=
  ⟨a.x + b.x, a.y + b.y, a.z + b.z⟩

/-- Scalar multiplication (`cgmath` scalar `*` vector). -/
def Vec3.smul (c : K) (v : Vec3 K) : Vec3 K :=
  ⟨c * v.x, c * v.y, c * v.z⟩

/-- Dot product (`cgmath::InnerSpace::dot`). -/
def Vec3.dot (a b : Vec3 K) : K :=
  a.x * b.x + a.y * b.y + a.z * b.z

/-- Cross product (`cgmath::Vector3::cross`). -/
def Vec3.cross (a b : Vec3 K) : Vec3 K :=
  ⟨a.y * b.z - a.z * b.y, a.z * b.x - a.x * b.z, a.x * b.y - a.y * b.x⟩

/-- `cgmath::Vector3::unit_x()`. -/
def Vec3.unit_x : Vec3 K := ⟨1, 0, 0⟩

/-- `cgmath::Vector3::unit_y()`. -/
def Vec3.unit_y : Vec3 K := ⟨0, 1, 0⟩

/-- `cgmath::Vector3::unit_z()`. -/
def Vec3.unit_z : Vec3 K := ⟨0, 0, 1⟩

/-- `cgmath::InnerSpace::normalize`: `self * (1 / magnitude)` where
`magnitude = sqrt (dot self self)`; the square root is the supplied
`sqrtf`. -/
def Vec3.normalize (sqrtf : K → K) (v : Vec3 K) : Vec3 K :=
  Vec3.smul (1 / sqrtf (v.dot v)) v

/-- Matrix-vector product: the vector's components weight the columns
(`cgmath`'s column-major convention). -/
def Mat4.mulVec (m : Mat4 K) (v : Vec4 K) : Vec4 K :=
  ⟨m.cx.x * v.x + m.cy.x * v.y + m.cz.x * v.z + m.cw.x * v.w,
   m.cx.y * v.x + m.cy.y * v.y + m.cz.y * v.z + m.cw.y * v.w,
   m.cx.z * v.x + m.cy.z * v.y + m.cz.z * v.z + m.cw.z * v.w,
   m.cx.w * v.x + m.cy.w * v.y + m.cz.w * v.z + m.cw.w * v.w⟩

/-- Matrix-matrix product (`cgmath` `Matrix4 * Matrix4`). -/
def Mat4.mul (a b : Mat4 K) : Mat4 K :=
  ⟨a.mulVec b.cx, a.mulVec b.cy, a.mulVec b.cz, a.mulVec b.cw⟩

/-- The 4x4 identity matrix. -/
def Mat4.identity : Mat4 K :=
  ⟨⟨1, 0, 0, 0⟩, ⟨0, 1, 0, 0⟩, ⟨0, 0, 1, 0⟩, ⟨0, 0, 0, 1⟩⟩

/-- `cgmath::Matrix4::from_translation`: identity with the translation in
the fourth column. -/
def Mat4.fromTranslation (v : Vec3 K) : Mat4 K :=
  ⟨⟨1, 0, 0, 0⟩, ⟨0, 1, 0, 0⟩, ⟨0, 0, 1, 0⟩, ⟨v.x, v.y, v.z, 1⟩⟩

/-- `Matrix3` applied to a vector (`cgmath`'s `transform_vector` on a
`Matrix3` is the plain matrix-vector product). -/
def Mat3.mulVec (m : Mat3 K) (v : Vec3 K) : Vec3 K :=
  ⟨m.cx.x * v.x + m.cy.x * v.y + m.cz.x * v.z,
   m.cx.y * v.x + m.cy.y * v.y + m.cz.y * v.z,
   m.cx.z * v.x + m.cy.z * v.y + m.cz.z * v.z⟩

/-- Determinant of a 3x3 matrix (expansion along the first row of
columns `cx`, `cy`, `cz`). -/
def Mat3.det (m : Mat3 K) : K :=
  m.cx.x * (m.cy.y * m.cz.z - m.cz.y * m.cy.z)
    - m.cy.x * (m.cx.y * m.cz.z - m.cz.y * m.cx.z)
    + m.cz.x * (m.cx.y * m.cy.z - m.cy.y * m.cx.z)

/-- Modelled from the spec: the mathematical inverse of a 3x3 matrix
(adjugate over determinant).  The source never inverts the rotation part;
this definition exists only to state the spec's claimed yaw axis, which
refers to the inverse of the view matrix's rotation part. -/
def Mat3.invert (m : Mat3 K) : Mat3 K :=
  let d := m.det
  let r1 := m.cy.cross m.cz
  let r2 := m.cz.cross m.cx
  let r3 := m.cx.cross m.cy
  ⟨⟨r1.x / d, r2.x / d, r3.x / d⟩,
   ⟨r1.y / d, r2.y / d, r3.y / d⟩,
   ⟨r1.z / d, r2.z / d, r3.z / d⟩⟩

/-- Quaternion with scalar part `s` and vector part `v`
(`cgmath::Quaternion<f32>`). -/
@[ext]
structure Quat (K : Type) where
  s : K
  v : Vec3 K
deriving DecidableEq

/-- `cgmath::Rotation3::from_axis_angle`: half-angle sine scales the axis,
half-angle cosine is the scalar part; sine and cosine are the supplied
`sinf`/`cosf`. -/
def Quat.fromAxisAngle (sinf cosf : K → K) (axis : Vec3 K) (angle : K) : Quat K :=
  ⟨cosf (angle * (1 / 2)), Vec3.smul (sinf (angle * (1 / 2))) axis⟩

/-- The `From<Quaternion<S>> for Matrix4<S>` conversion in `cgmath`,
reproduced entry for entry (column-major). -/
def Quat.toMat4 (q : Quat K) : Mat4 K :=
  let x2 := q.v.x + q.v.x
  let y2 := q.v.y + q.v.y
  let z2 := q.v.z + q.v.z
  let xx2 := x2 * q.v.x
  let xy2 := x2 * q.v.y
  let xz2 := x2 * q.v.z
  let yy2 := y2 * q.v.y
  let yz2 := y2 * q.v.z
  let zz2 := z2 * q.v.z
  let sy2 := y2 * q.s
  let sz2 := z2 * q.s
  let sx2 := x2 * q.s
  ⟨⟨1 - yy2 - zz2, xy2 + sz2, xz2 - sy2, 0⟩,
   ⟨xy2 - sz2, 1 - xx2 - zz2, yz2 + sx2, 0⟩,
   ⟨xz2 + sy2, yz2 - sx2, 1 - xx2 - yy2, 0⟩,
   ⟨0, 0, 0, 1⟩⟩

/-- The `f32` library routines the renderer calls, passed explicitly so the
embedding stays parametric in the scalar field. -/
structure FloatOps (K : Type) where
  sinf : K → K
  cosf : K → K
  sqrtf : K → K
  tanf : K → K

/-- `Cache<T>` from `src/cache.rs`: a value together with a dirty flag. -/
structure Cache (T : Type) where
  value : T
  dirty : Bool
deriving DecidableEq

/-- `Cache::new`: starts dirty. -/
def Cache.new (value : T) : Cache T := ⟨value, true⟩

/-- `Cache::is_dirty`. -/
def Cache.is_dirty (c : Cache T) : Bool := c.dirty

/-- `Cache::clear`: resets the dirty flag. -/
def Cache.clear (c : Cache T) : Cache T := { c with dirty := false }

/-- `VecCache<T>` from `src/cache.rs`: a sequence together with one dirty
flag for the whole sequence. -/
structure VecCache (T : Type) where
  values : List T
  dirty : Bool
deriving DecidableEq

/-- `VecCache::new`: starts dirty. -/
def VecCache.new (values : List T) : VecCache T := ⟨values, true⟩

/-- `VecCache::is_dirty`. -/
def VecCache.is_dirty (c : VecCache T) : Bool := c.dirty

/-- `VecCache::clear`. -/
def VecCache.clear (c : VecCache T) : VecCache T := { c with dirty := false }

/-- `Pool<T>` from `src/allocator/pool.rs`: slots plus a free list (the
free list is a `Vec` used as a stack, pushed and popped at its back). -/
structure Pool (T : Type) where
  elements : List (Option T)
  free_list : List Nat
deriving DecidableEq

/-- `Pool::get`: `elements.get(index)` flattened through the `Option`
slot. -/
def Pool.get (p : Pool T) (index : Nat) : Option T :=
  (p.elements.get? index).bind id

/-- `Pool::allocate`, exactly as written in the source: with an empty free
list it pushes `Some value` and returns the last index; otherwise it pops
an index off the free list and returns it WITHOUT storing `value` anywhere
(the `value` argument is dropped in that branch). -/
def Pool.allocate (p : Pool T) (value : T) : Pool T × Nat :=
  if p.free_list.length = 0 then
    ({ p with elements := p.elements ++ [some value] },
      (p.elements ++ [some value]).length - 1)
  else
    ({ p with free_list := p.free_list.dropLast }, (p.free_list.getLast?).getD 0)

/-- `Pool::delete`: pushes the index on the free list and overwrites the
slot with `None` (indexing panics when out of bounds; modelled only for
in-bounds indices, where `List.set` coincides with the source). -/
def Pool.delete (p : Pool T) (index : Nat) : Pool T :=
  { elements := p.elements.set index none, free_list := p.free_list ++ [index] }

/-- The GPU-side camera uniform, `pipeline::mesh::Camera`
(`src/pipeline/mesh.rs`): position, explicit padding scalar, and the
view-projection matrix. -/
structure MeshCamera (K : Type) where
  position : Vec3 K
  padding : K
  view_proj : Mat4 K
deriving DecidableEq

/-- `pipeline::mesh::Object`: a model matrix and a metallic factor
(the three-float padding is bookkeeping for GPU layout and carries no
information; it is omitted). -/
structure MeshObject (K : Type) where
  model : Mat4 K
  metallic : K
deriving DecidableEq

/-- `pipeline::mesh::PointLight`. -/
structure MeshPointLight (K : Type) where
  position : Vec3 K
  color : Vec3 K
  strength : K
deriving DecidableEq

/-- `pipeline::mesh::DirectionalLight`. -/
structure MeshDirectionalLight (K : Type) where
  position : Vec3 K
  direction : Vec3 K
  color : Vec3 K
  strength : K
deriving DecidableEq

/-- `scene::Camera` (`src/scene.rs`): the derived GPU uniform plus view,
projection, position and the scalar parameters. -/
structure Camera (K : Type) where
  mesh_camera : MeshCamera K
  view : Mat4 K
  projection : Mat4 K
  position : Vec3 K
  fov : K
  aspect : K
  near : K
  far : K
  speed : K
  rot_rate : K
deriving DecidableEq

/-- `scene::perspective_transform`: `c = 1 / tan (fov / 2)` and the four
columns exactly as written in the source. -/
def perspective_transform (tanf : K → K) (near far aspect fov : K) : Mat4 K :=
  let c := 1 / tanf (fov / 2)
  ⟨⟨c / aspect, 0, 0, 0⟩,
   ⟨0, c, 0, 0⟩,
   ⟨0, 0, far / (far - near), 1⟩,
   ⟨0, 0, -(far * near) / (far - near), 0⟩⟩

/-- `Camera::update` (`src/scene.rs`): recomputes the projection from the
given parameters, rebuilds the uniform as `projection * view` with the
stored position, and stores all six scalar parameters.  The view matrix is
not touched. -/
def Camera.update (tanf : K → K) (cam : Camera K)
    (fov aspect near far speed rot_rate : K) : Camera K :=
  let projection := perspective_transform tanf near far aspect fov
  { cam with
    projection := projection
    mesh_camera := ⟨cam.position, 0, projection.mul cam.view⟩
    near := near
    far := far
    fov := fov
    aspect := aspect
    speed := speed
    rot_rate := rot_rate }

/-- `scene::Scene`: dirty-tracked objects, lights and camera. -/
structure Scene (K : Type) where
  objects : VecCache (MeshObject K)
  point_lights : VecCache (MeshPointLight K)
  directional_lights : VecCache (MeshDirectionalLight K)
  camera : Cache (Camera K)
deriving DecidableEq

/-- The four physical keys `Scene::update` queries. -/
inductive KeyCode where
  | KeyW
  | KeyS
  | KeyD
  | KeyA
deriving DecidableEq

/-- `Scene::check_key`: `kmap.get(key).is_some_and(|pressed| *pressed)` —
an absent entry counts as not pressed. -/
def check_key (kmap : KeyCode → Option Bool) (code : KeyCode) : Bool :=
  (kmap code).getD false

/-- `Scene::extract_rotation`: the upper-left 3x3 block of a 4x4 matrix,
column by column (`Matrix3::new` takes column-major arguments, and
`matrix.x`, `matrix.y`, `matrix.z` are the first three columns). -/
def extract_rotation (m : Mat4 K) : Mat3 K :=
  ⟨⟨m.cx.x, m.cx.y, m.cx.z⟩, ⟨m.cy.x, m.cy.y, m.cy.z⟩, ⟨m.cz.x, m.cz.y, m.cz.z⟩⟩

/-- `(a as i32 - b as i32) as f32` applied to two key states. -/
def axis_value (a b : Bool) : K :=
  (if a then 1 else 0) - (if b then 1 else 0)

/-- The displacement computed at the top of `Scene::update`
(`src/scene.rs` lines 251-262):
`delta * speed * ((-forward_axis * unit_z) + (-side_axis * unit_x))`. -/
def Scene.displacement (s : Scene K) (kmap : KeyCode → Option Bool) (delta : K) :
    Vec3 K :=
  let forward_axis : K :=
    axis_value (check_key kmap KeyCode.KeyW) (check_key kmap KeyCode.KeyS)
  let side_axis : K :=
    axis_value (check_key kmap KeyCode.KeyD) (check_key kmap KeyCode.KeyA)
  Vec3.smul (delta * s.camera.value.speed)
    (Vec3.add (Vec3.smul (-forward_axis) Vec3.unit_z)
      (Vec3.smul (-side_axis) Vec3.unit_x))

/-- The mouse-delta summation loop of `Scene::update`: fold the buffered
movements in order, adding each onto the running total. -/
def mouseTotal (mouse_movements : List (K × K)) : K × K :=
  mouse_movements.foldl (fun acc m => (m.1 + acc.1, m.2 + acc.2)) (0, 0)

/-- The yaw axis computed by `Scene::update`: world `+Y` pushed through the
rotation part of the view matrix (`extract_rotation`, then
`transform_vector`), normalised. -/
def yaw_axis (sqrtf : K → K) (view : Mat4 K) : Vec3 K :=
  Vec3.normalize sqrtf ((extract_rotation view).mulVec Vec3.unit_y)

/-- `Scene::update` (`src/scene.rs` lines 245-289).  Returns the updated
scene together with the mouse buffer left behind (the source clears the
`&mut Vec` in place).  The final view is the source's left-associated
product `from_translation(displacement) * local_rotation * global_rotation
* view`; the uniform is rebuilt as `projection * view'` and the camera
cache is marked dirty.  Nothing else in the scene is touched. -/
def Scene.update (ops : FloatOps K) (s : Scene K) (kmap : KeyCode → Option Bool)
    (mouse_movements : List (K × K)) (delta : K) : Scene K × List (K × K) :=
  let displacement := s.displacement kmap delta
  let total_movement := mouseTotal mouse_movements
  let local_rotation := Quat.fromAxisAngle ops.sinf ops.cosf Vec3.unit_x
    (-s.camera.value.rot_rate * total_movement.2 * delta)
  let global_rotation := Quat.fromAxisAngle ops.sinf ops.cosf
    (yaw_axis ops.sqrtf s.camera.value.view)
    (-s.camera.value.rot_rate * total_movement.1 * delta)
  let view' := (((Mat4.fromTranslation displacement).mul
    local_rotation.toMat4).mul global_rotation.toMat4).mul s.camera.value.view
  let cam := s.camera.value
  ({ s with
      camera :=
        { value :=
            { cam with
              view := view'
              mesh_camera := { cam.mesh_camera with
                view_proj := cam.projection.mul view' } }
          dirty := true } },
    [])

/-- Multiplying by the identity on the right changes nothing. -/
theorem Mat4.mul_ident (m : Mat4 K) : m.mul Mat4.identity = m := by
  ext <;> simp only [Mat4.mul, Mat4.mulVec, Mat4.identity] <;> ring

/-- Matrix multiplication is associative. -/
theorem Mat4.mul_assoc (a b c : Mat4 K) : (a.mul b).mul c = a.mul (b.mul c) := by
  ext <;> simp only [Mat4.mul, Mat4.mulVec] <;> ring

/-- A quaternion built from a zero angle is the identity rotation, given
that the trig routines satisfy `sin 0 = 0` and `cos 0 = 1`. -/
theorem fromAxisAngle_zero (sinf cosf : K → K) (h0 : sinf 0 = 0)
    (h1 : cosf 0 = 1) (axis : Vec3 K) (t : K) (ht : t = 0) :
    (Quat.fromAxisAngle sinf cosf axis t).toMat4 = Mat4.identity := by
  subst ht
  unfold Quat.fromAxisAngle
  rw [show (0 : K) * (1 / 2) = 0 by ring, h0, h1]
  ext <;> simp only [Quat.toMat4, Vec3.smul, Mat4.identity] <;> ring

/-- Modelled from the spec (claim C5's wording): the yaw axis as the
normalised image of world `+Y` under the INVERSE of the view matrix's
rotation part.  The source does not invert; this definition exists to be
compared against the code. -/
def spec_yaw_axis (sqrtf : K → K) (view : Mat4 K) : Vec3 K :=
  Vec3.normalize sqrtf ((Mat3.invert (extract_rotation view)).mulVec Vec3.unit_y)

/-- Modelled from the spec (claim C5's wording): the claimed new view
matrix `T(displacement) * R(local_pitch) * R(global_yaw) * view` with the
yaw axis taken through the inverse rotation part (`spec_yaw_axis`). -/
def spec_view_update (ops : FloatOps K) (s : Scene K)
    (kmap : KeyCode → Option Bool) (buf : List (K × K)) (delta : K) : Mat4 K :=
  let tm := mouseTotal buf
  let p := Quat.fromAxisAngle ops.sinf ops.cosf Vec3.unit_x
    (-s.camera.value.rot_rate * tm.2 * delta)
  let g := Quat.fromAxisAngle ops.sinf ops.cosf
    (spec_yaw_axis ops.sqrtf s.camera.value.view)
    (-s.camera.value.rot_rate * tm.1 * delta)
  (((Mat4.fromTranslation (s.displacement kmap delta)).mul p.toMat4).mul
    g.toMat4).mul s.camera.value.view

/-- A key map with no entries: no key is pressed. -/
def kmapNone : KeyCode → Option Bool := fun _ => none

/-- A key map with only W pressed. -/
def kmapW : KeyCode → Option Bool := fun c =>
  match c with
  | KeyCode.KeyW => some true
  | _ => some false

/-- A concrete rational camera whose view matrix is the rotation by a
quarter turn about the X axis (an orthogonal, non-symmetric rotation
part). -/
def camRotX : Camera ℚ :=
  { mesh_camera := ⟨⟨0, 0, 0⟩, 0, Mat4.identity⟩
    view := ⟨⟨1, 0, 0, 0⟩, ⟨0, 0, 1, 0⟩, ⟨0, -1, 0, 0⟩, ⟨0, 0, 0, 1⟩⟩
    projection := Mat4.identity
    position := ⟨0, 0, 0⟩
    fov := 3 / 4
    aspect := 1
    near := 1 / 10
    far := 100
    speed := 1
    rot_rate := 1 }

/-- A concrete rational scene holding `camRotX` and no objects or lights. -/
def sceneRotX : Scene ℚ :=
  { objects := ⟨[], true⟩
    point_lights := ⟨[], true⟩
    directional_lights := ⟨[], true⟩
    camera := ⟨camRotX, false⟩ }

/-- Concrete trig stand-ins for the C5 counterexample: linear functions
that take the exact values the claim needs at the only two half-angles
that occur, namely `0 ↦ (sin 0, cos 0) = (0, 1)` and
`-1/2 ↦ (3/5, 4/5)` (an exact sine/cosine pair).  The square root is only
taken of `1` here, where the identity function is exact. -/
def opsC : FloatOps ℚ :=
  { sinf := fun t => t * (-6 / 5)
    cosf := fun t => 1 + t * (2 / 5)
    sqrtf := fun t => t
    tanf := fun t => t }

set_option maxHeartbeats 2000000 in
/-- Claim C5 (as stated, refuted): the claim takes the global-yaw axis to
be the normalised image of world `+Y` under the INVERSE of the view
rotation part.  At the concrete quarter-turn view matrix of `sceneRotX`,
one buffered mouse delta `(1, 0)` and unit timestep, the view produced by
`Scene::update` differs from the spec's formula: the code transforms `+Y`
by the rotation part itself (axis `(0,0,1)` here), the claim by its
inverse (axis `(0,0,-1)`). -/
theorem C5_counterexample :
    (Scene.update opsC sceneRotX kmapNone [((1 : ℚ), 0)] 1).1.camera.value.view ≠
      spec_view_update opsC sceneRotX kmapNone [((1 : ℚ), 0)] 1 := by
  intro h
  have h2 := congrArg (fun m => m.cx.y) h
  simp only [Scene.update, spec_view_update, Scene.displacement, mouseTotal,
    yaw_axis, spec_yaw_axis, extract_rotation, Mat3.invert, Mat3.det,
    Mat3.mulVec, Vec3.normalize, Vec3.dot, Vec3.smul, Vec3.add, Vec3.cross,
    Vec3.unit_x, Vec3.unit_y, Vec3.unit_z, Quat.fromAxisAngle, Quat.toMat4,
    Mat4.fromTranslation, Mat4.mul, Mat4.mulVec, Mat4.identity, camRotX,
    sceneRotX, opsC, kmapNone, check_key, axis_value, Option.getD,
    List.foldl] at h2
  norm_num at h2

/-- Claim C5, amended: every kinematic update sets the new view matrix to
exactly `T(displacement) * R(local_pitch) * R(global_yaw) * old_view`,
where `local_pitch` rotates about the camera-local X axis and `global_yaw`
rotates about the normalised image of world `+Y` under the view matrix's
rotation part itself (its upper-left 3x3, which maps world directions into
camera coordinates) — not under its inverse. -/
theorem C5_view_composition (ops : FloatOps K) (s : Scene K)
    (kmap : KeyCode → Option Bool) (buf : List (K × K)) (delta : K) :
    (Scene.update ops s kmap buf delta).1.camera.value.view =
      (Mat4.fromTranslation (s.displacement kmap delta)).mul
        ((Quat.toMat4 (Quat.fromAxisAngle ops.sinf ops.cosf Vec3.unit_x
            (-s.camera.value.rot_rate * (mouseTotal buf).2 * delta))).mul
          ((Quat.toMat4 (Quat.fromAxisAngle ops.sinf ops.cosf
              (yaw_axis ops.sqrtf s.camera.value.view)
              (-s.camera.value.rot_rate * (mouseTotal buf).1 * delta))).mul
            s.camera.value.view)) := by
  rw [← Mat4.mul_assoc, ← Mat4.mul_assoc]
  rfl

/-- Claim C6: one `Scene::update` call drains the mouse buffer (returned
buffer is empty) after folding all buffered deltas into a single total in
order (the spec's `[(1,2),(3,-1)]` sums to `(4,1)`); and a call that sees
an empty buffer builds zero-angle rotations, so given `sin 0 = 0` and
`cos 0 = 1` both rotation factors are the identity and the view changes by
the translation factor alone. -/
theorem C6_mouse_buffer_drains_once (ops : FloatOps K) (s : Scene K)
    (kmap : KeyCode → Option Bool) (buf : List (K × K)) (delta : K)
    (h0 : ops.sinf 0 = 0) (h1 : ops.cosf 0 = 1) :
    (Scene.update ops s kmap buf delta).2 = [] ∧
    mouseTotal [((1 : K), 2), (3, -1)] = (4, 1) ∧
    (Scene.update ops s kmap [] delta).1.camera.value.view =
      (Mat4.fromTranslation (s.displacement kmap delta)).mul
        s.camera.value.view := by
  refine ⟨rfl, ?_, ?_⟩
  · simp only [mouseTotal, List.foldl]
    norm_num
  · have e1 : (Scene.update ops s kmap [] delta).1.camera.value.view =
        (((Mat4.fromTranslation (s.displacement kmap delta)).mul
          (Quat.fromAxisAngle ops.sinf ops.cosf Vec3.unit_x
            (-s.camera.value.rot_rate *
              (mouseTotal ([] : List (K × K))).2 * delta)).toMat4).mul
          (Quat.fromAxisAngle ops.sinf ops.cosf
            (yaw_axis ops.sqrtf s.camera.value.view)
            (-s.camera.value.rot_rate *
              (mouseTotal ([] : List (K × K))).1 * delta)).toMat4).mul
          s.camera.value.view := rfl
    rw [e1,
      fromAxisAngle_zero ops.sinf ops.cosf h0 h1 _ _ (by simp [mouseTotal]),
      fromAxisAngle_zero ops.sinf ops.cosf h0 h1 _ _ (by simp [mouseTotal]),
      Mat4.mul_ident, Mat4.mul_ident]

/-- Sample operations for witnesses: constant trig routines that satisfy
`sin 0 = 0` and `cos 0 = 1`. -/
def opsW : FloatOps ℚ :=
  { sinf := fun _ => 0, cosf := fun _ => 1, sqrtf := fun _ => 1, tanf := fun _ => 1 }

/-- Witness for claim C6 at a concrete scene, empty buffer and unit
timestep. -/
theorem C6_witness :
    opsW.sinf 0 = 0 ∧ opsW.cosf 0 = 1 ∧
    ((Scene.update opsW sceneRotX kmapNone [] 1).2 = [] ∧
      mouseTotal [((1 : ℚ), 2), (3, -1)] = (4, 1) ∧
      (Scene.update opsW sceneRotX kmapNone [] 1).1.camera.value.view =
        (Mat4.fromTranslation (sceneRotX.displacement kmapNone 1)).mul
          sceneRotX.camera.value.view) :=
  ⟨rfl, rfl, C6_mouse_buffer_drains_once opsW sceneRotX kmapNone [] 1 rfl rfl⟩

/-- Claim C7: with W pressed and S, D, A not pressed (forward axis 1, side
axis 0) and nonnegative `delta_time` and camera speed, the displacement
computed by `Scene::update` has magnitude `delta_time * speed`.  The
statement quantifies over the whole scene, so it holds for every view
matrix — the displacement never reads the view, hence is invariant under
accumulated pitch and yaw. -/
theorem C7_forward_displacement_magnitude (s : Scene ℝ)
    (kmap : KeyCode → Option Bool) (delta : ℝ)
    (hW : check_key kmap KeyCode.KeyW = true)
    (hS : check_key kmap KeyCode.KeyS = false)
    (hD : check_key kmap KeyCode.KeyD = false)
    (hA : check_key kmap KeyCode.KeyA = false)
    (hdelta : 0 ≤ delta) (hspeed : 0 ≤ s.camera.value.speed) :
    Real.sqrt (Vec3.dot (s.displacement kmap delta) (s.displacement kmap delta)) =
      delta * s.camera.value.speed := by
  have hd : s.displacement kmap delta =
      ⟨0, 0, -(delta * s.camera.value.speed)⟩ := by
    simp only [Scene.displacement, hW, hS, hD, hA, axis_value]
    ext <;>
      simp only [Vec3.smul, Vec3.add, Vec3.unit_x, Vec3.unit_z, if_true,
        if_false, Bool.false_eq_true] <;>
      ring
  have hdot : Vec3.dot (⟨0, 0, -(delta * s.camera.value.speed)⟩ : Vec3 ℝ)
      ⟨0, 0, -(delta * s.camera.value.speed)⟩ =
      (delta * s.camera.value.speed) ^ 2 := by
    simp only [Vec3.dot]
    ring
  rw [hd, hdot, Real.sqrt_sq (mul_nonneg hdelta hspeed)]

/-- Witness for claim C7: a concrete real-valued scene with camera speed 2
and identity view, the key map with only W pressed, and unit timestep.
(The scene is written inline because concrete real-number structures have
no executable code.) -/
theorem C7_witness :
    check_key kmapW KeyCode.KeyW = true ∧
    check_key kmapW KeyCode.KeyS = false ∧
    check_key kmapW KeyCode.KeyD = false ∧
    check_key kmapW KeyCode.KeyA = false ∧
    (0 : ℝ) ≤ 1 ∧
    (0 : ℝ) ≤ (({ objects := ⟨[], true⟩
                  point_lights := ⟨[], true⟩
                  directional_lights := ⟨[], true⟩
                  camera :=
                    ⟨{ mesh_camera := ⟨⟨0, 0, 0⟩, 0, Mat4.identity⟩
                       view := Mat4.identity
                       projection := Mat4.identity
                       position := ⟨0, 0, 0⟩
                       fov := 1
                       aspect := 1
                       near := 1
                       far := 100
                       speed := 2
                       rot_rate := 1 }, true⟩ } : Scene ℝ)).camera.value.speed ∧
    Real.sqrt (Vec3.dot
        (Scene.displacement
          ({ objects := ⟨[], true⟩
             point_lights := ⟨[], true⟩
             directional_lights := ⟨[], true⟩
             camera :=
               ⟨{ mesh_camera := ⟨⟨0, 0, 0⟩, 0, Mat4.identity⟩
                  view := Mat4.identity
                  projection := Mat4.identity
                  position := ⟨0, 0, 0⟩
                  fov := 1
                  aspect := 1
                  near := 1
                  far := 100
                  speed := 2
                  rot_rate := 1 }, true⟩ } : Scene ℝ) kmapW 1)
        (Scene.displacement
          ({ objects := ⟨[], true⟩
             point_lights := ⟨[], true⟩
             directional_lights := ⟨[], true⟩
             camera :=
               ⟨{ mesh_camera := ⟨⟨0, 0, 0⟩, 0, Mat4.identity⟩
                  view := Mat4.identity
                  projection := Mat4.identity
                  position := ⟨0, 0, 0⟩
                  fov := 1
                  aspect := 1
                  near := 1
                  far := 100
                  speed := 2
                  rot_rate := 1 }, true⟩ } : Scene ℝ) kmapW 1)) =
      1 * (({ objects := ⟨[], true⟩
              point_lights := ⟨[], true⟩
              directional_lights := ⟨[], true⟩
              camera :=
                ⟨{ mesh_camera := ⟨⟨0, 0, 0⟩, 0, Mat4.identity⟩
                   view := Mat4.identity
                   projection := Mat4.identity
                   position := ⟨0, 0, 0⟩
                   fov := 1
                   aspect := 1
                   near := 1
                   far := 100
                   speed := 2
                   rot_rate := 1 }, true⟩ } : Scene ℝ)).camera.value.speed :=
  ⟨rfl, rfl, rfl, rfl, by norm_num, (by norm_num : (0 : ℝ) ≤ 2),
    C7_forward_displacement_magnitude _ kmapW 1 rfl rfl rfl rfl
      (by norm_num) (by norm_num : (0 : ℝ) ≤ 2)⟩

/-- Claim C9: `Scene::update` leaves the camera's `position` field and the
uniform's `position` (and padding) untouched, along with `projection`,
`fov`, `aspect`, `near`, `far`, `speed` and `rot_rate`; the only camera
fields it changes are `view`, the uniform's `view_proj` (rebuilt as
`projection * view'`) and the dirty flag (set to `true`).  The object and
light caches are untouched as well. -/
theorem C9_update_preserves_camera_position (ops : FloatOps K) (s : Scene K)
    (kmap : KeyCode → Option Bool) (buf : List (K × K)) (delta : K) :
    (Scene.update ops s kmap buf delta).1.camera.value.position =
        s.camera.value.position ∧
    (Scene.update ops s kmap buf delta).1.camera.value.mesh_camera.position =
        s.camera.value.mesh_camera.position ∧
    (Scene.update ops s kmap buf delta).1.camera.value.mesh_camera.padding =
        s.camera.value.mesh_camera.padding ∧
    (Scene.update ops s kmap buf delta).1.camera.value.projection =
        s.camera.value.projection ∧
    (Scene.update ops s kmap buf delta).1.camera.value.fov =
        s.camera.value.fov ∧
    (Scene.update ops s kmap buf delta).1.camera.value.aspect =
        s.camera.value.aspect ∧
    (Scene.update ops s kmap buf delta).1.camera.value.near =
        s.camera.value.near ∧
    (Scene.update ops s kmap buf delta).1.camera.value.far =
        s.camera.value.far ∧
    (Scene.update ops s kmap buf delta).1.camera.value.speed =
        s.camera.value.speed ∧
    (Scene.update ops s kmap buf delta).1.camera.value.rot_rate =
        s.camera.value.rot_rate ∧
    (Scene.update ops s kmap buf delta).1.camera.dirty = true ∧
    (Scene.update ops s kmap buf delta).1.camera.value.mesh_camera.view_proj =
      s.camera.value.projection.mul
        (Scene.update ops s kmap buf delta).1.camera.value.view ∧
    (Scene.update ops s kmap buf delta).1.objects = s.objects ∧
    (Scene.update ops s kmap buf delta).1.point_lights = s.point_lights ∧
    (Scene.update ops s kmap buf delta).1.directional_lights =
        s.directional_lights :=
  ⟨rfl, rfl, rfl, rfl, rfl, rfl, rfl, rfl, rfl, rfl, rfl, rfl, rfl, rfl, rfl⟩

/-- The buffer-write targets `Mesh::update` can issue through
`queue.write_buffer`. -/
inductive WriteTarget where
  | lights
  | camera
  | object (index : Nat)
deriving DecidableEq

/-- The CPU-visible contents of the GPU buffers owned by
`pipeline::mesh::Mesh` (the spec's `GPUResourceSet`): the light storage
buffer, the camera uniform buffer and one uniform buffer per object.
Pipeline/bind-group handles and the immutable vertex/index buffers carry
no per-frame state and are omitted. -/
structure Mesh (K : Type) where
  lights_buffer : List (MeshPointLight K)
  camera_buffer : MeshCamera K
  object_buffers : List (MeshObject K)
deriving DecidableEq

/-- `Mesh::update` (`src/pipeline/mesh.rs` lines 273-290), the spec's
`GPUResourceSet.sync`.  The source writes the whole light array, the
camera uniform, and then one object uniform per `zip`-pair of scene object
and object buffer — all three writes are unconditional, no dirty flag is
consulted, and since the scene is taken by shared reference (`&Scene`) no
flag can be cleared.  `zip` stops at the shorter side, so surplus objects
or buffers are silently skipped.  (The source names the lights
`scene.lights` and the uniform `scene.camera.mesh_camera`; against the
current `Scene` these resolve to the cached `point_lights` values and the
cached camera's uniform, the only fields of those types.)  Returns the new
buffer contents together with the list of issued writes. -/
def Mesh.update (m : Mesh K) (s : Scene K) : Mesh K × List WriteTarget :=
  let lights' := s.point_lights.values
  let camera' := s.camera.value.mesh_camera
  let objects' := (s.objects.values.zip m.object_buffers).map Prod.fst ++
    m.object_buffers.drop s.objects.values.length
  (⟨lights', camera', objects'⟩,
    [WriteTarget.lights, WriteTarget.camera] ++
      (List.range (min s.objects.values.length m.object_buffers.length)).map
        WriteTarget.object)

/-- A scene whose three dirty flags are all `false` (as after a frame in
which every cache was cleared), with one object and one point light. -/
def cleanScene : Scene ℚ :=
  { objects := ⟨[⟨Mat4.identity, 1 / 2⟩], false⟩
    point_lights := ⟨[⟨⟨0, 2, -2⟩, ⟨1, 1, 1⟩, 0⟩], false⟩
    directional_lights := ⟨[], false⟩
    camera := ⟨camRotX, false⟩ }

/-- GPU buffers holding stale values distinct from `cleanScene`'s data. -/
def staleMesh : Mesh ℚ :=
  { lights_buffer := [⟨⟨9, 9, 9⟩, ⟨9, 9, 9⟩, 9⟩]
    camera_buffer := ⟨⟨9, 9, 9⟩, 9, Mat4.identity⟩
    object_buffers := [⟨Mat4.identity, 9⟩] }

/-- Claim C1 (refuted by the code): the claim says the per-frame sync
writes each buffer only when its dirty flag is set and clears each flag
exactly once after the write.  Evaluating `Mesh::update` on a scene whose
lights, camera and objects flags are all `false`: the lights, camera and
object writes are all still issued and the buffers are overwritten with
the scene data.  Moreover the function receives the scene by shared
reference, so no dirty flag is (or can be) cleared — the flags machinery
of `src/cache.rs` is never consulted by the sync path at all. -/
theorem C1_sync_ignores_dirty_flags :
    cleanScene.point_lights.dirty = false ∧
    cleanScene.camera.dirty = false ∧
    cleanScene.objects.dirty = false ∧
    (Mesh.update staleMesh cleanScene).2 =
      [WriteTarget.lights, WriteTarget.camera, WriteTarget.object 0] ∧
    (Mesh.update staleMesh cleanScene).1.lights_buffer =
      cleanScene.point_lights.values ∧
    (Mesh.update staleMesh cleanScene).1.camera_buffer =
      cleanScene.camera.value.mesh_camera ∧
    (Mesh.update staleMesh cleanScene).1.object_buffers =
      cleanScene.objects.values :=
  ⟨rfl, rfl, rfl, rfl, rfl, rfl, rfl⟩

/-- A scene with two objects, for the capacity-mismatch counterexample. -/
def sceneTwoObjects : Scene ℚ :=
  { objects := ⟨[⟨Mat4.identity, 1 / 2⟩, ⟨Mat4.identity, 4 / 5⟩], true⟩
    point_lights := ⟨[⟨⟨0, 2, -2⟩, ⟨1, 1, 1⟩, 0⟩], true⟩
    directional_lights := ⟨[], true⟩
    camera := ⟨camRotX, true⟩ }

/-- Claim C4 (as stated, refuted): the claim requires a sync whose scene
object count differs from the constructed buffer count to be rejected with
a detectable failure.  With two scene objects against one object buffer,
`Mesh::update` returns normally (it is total and has no error channel),
issues a write for object 0 only, and never touches or reports object 1 —
the `zip` silently truncates. -/
theorem C4_counterexample :
    sceneTwoObjects.objects.values.length = 2 ∧
    staleMesh.object_buffers.length = 1 ∧
    (Mesh.update staleMesh sceneTwoObjects).2 =
      [WriteTarget.lights, WriteTarget.camera, WriteTarget.object 0] ∧
    WriteTarget.object 1 ∉ (Mesh.update staleMesh sceneTwoObjects).2 ∧
    (Mesh.update staleMesh sceneTwoObjects).1.object_buffers.length = 1 := by
  refine ⟨rfl, rfl, rfl, ?_, rfl⟩
  intro hmem
  simp only [Mesh.update] at hmem
  revert hmem
  decide

omit [Field K] in
/-- Claim C4, amended: `Mesh::update` never rejects a capacity mismatch.
For every buffer set and scene it returns normally, writing the lights
buffer, the camera buffer, and exactly the first
`min (scene objects) (object buffers)` object uniforms (silent `zip`
truncation); the number of object buffers never changes. -/
theorem C4_sync_silently_truncates (m : Mesh K) (s : Scene K) :
    (Mesh.update m s).2 =
      [WriteTarget.lights, WriteTarget.camera] ++
        (List.range (min s.objects.values.length m.object_buffers.length)).map
          WriteTarget.object ∧
    (Mesh.update m s).1.object_buffers.length = m.object_buffers.length := by
  refine ⟨rfl, ?_⟩
  simp only [Mesh.update, List.length_append, List.length_map, List.length_zip,
    List.length_drop]
  omega

/-- The surface-configuration fields the resize path touches
(`wgpu::SurfaceConfiguration`, reduced to its mutable part). -/
structure SurfaceConfig where
  width : Nat
  height : Nat
deriving DecidableEq

/-- `RendererState` (`src/lib.rs`), reduced to the fields the resize and
render control flow reads or writes: the window's inner size, the surface
configuration, the configured flag and the depth texture's size. -/
structure RendererState where
  winW : Nat
  winH : Nat
  surface_config : SurfaceConfig
  is_surface_configured : Bool
  depth_size : Nat × Nat
deriving DecidableEq

/-- The GPU side effects `RendererState::resize` can issue. -/
inductive ResizeEffect where
  | configureSurface (width height : Nat)
  | createDepthTexture (width height : Nat)
deriving DecidableEq

/-- `cgmath::Matrix4::look_to_lh`: forward, side and up basis vectors in
the columns, with the negated eye-dot products in the fourth column
(column-major `Matrix4::new`). -/
def look_to_lh (sqrtf : K → K) (eye dir up : Vec3 K) : Mat4 K :=
  let f := dir.normalize sqrtf
  let s := (up.cross f).normalize sqrtf
  let u := f.cross s
  ⟨⟨s.x, u.x, f.x, 0⟩,
   ⟨s.y, u.y, f.y, 0⟩,
   ⟨s.z, u.z, f.z, 0⟩,
   ⟨-(eye.dot s), -(eye.dot u), -(eye.dot f), 1⟩⟩

/-- `cgmath::Matrix4::look_at_lh`: `look_to_lh` with direction
`center - eye`. -/
def look_at_lh (sqrtf : K → K) (eye center up : Vec3 K) : Mat4 K :=
  look_to_lh sqrtf eye ⟨center.x - eye.x, center.y - eye.y, center.z - eye.z⟩ up

/-- `RendererState::resize` (`src/lib.rs` lines 347-366).  When both
dimensions are positive: set the configured flag, store the new size in
the surface configuration, configure the surface, recreate the depth
texture at the configuration's size, and — when a scene is supplied —
overwrite the cached camera's uniform `view_proj` with the hard-coded
product `perspective_transform(0.1, 5.0, winW/winH, 0.75) *
look_at_lh((0,1.2,-3), (0,0,0), +Y)` (the aspect ratio is read from the
window's inner size, not from the resize arguments; `0.1`, `5.0`, `0.75`
and the eye/center points are literals in the source, independent of the
camera's own fields, and `Camera::update` is not called).  The source
writes this to `scene.camera.view_proj`; against the current `Scene` the
nearest such field is the cached camera's `mesh_camera.view_proj`, used
here.  When either dimension is zero, nothing happens. -/
def RendererState.resize (ops : FloatOps K) (st : RendererState)
    (width height : Nat) (scene : Option (Scene K)) :
    RendererState × Option (Scene K) × List ResizeEffect :=
  if 0 < width ∧ 0 < height then
    let cfg : SurfaceConfig := ⟨width, height⟩
    let st' : RendererState :=
      { st with
        is_surface_configured := true
        surface_config := cfg
        depth_size := (cfg.width, cfg.height) }
    let scene' := scene.map (fun sc =>
      let vp := (perspective_transform ops.tanf (1 / 10) 5
          ((st.winW : K) / (st.winH : K)) (3 / 4)).mul
        (look_at_lh ops.sqrtf ⟨0, 6 / 5, -3⟩ ⟨0, 0, 0⟩ Vec3.unit_y)
      { sc with
        camera :=
          { sc.camera with
            value :=
              { sc.camera.value with
                mesh_camera :=
                  { sc.camera.value.mesh_camera with view_proj := vp } } } })
    (st', scene', [ResizeEffect.configureSurface width height,
      ResizeEffect.createDepthTexture cfg.width cfg.height])
  else
    (st, scene, [])

/-- A renderer state with window inner size 2x1, not yet configured. -/
def stWin : RendererState := ⟨2, 1, ⟨1, 1⟩, false, (1, 1)⟩

/-- Claim C2 (refuted by the code): the claim says a positive resize with
a live scene re-derives the camera's projection via `Camera::update` at
the new aspect ratio, preserving fov/near/far/speed/rot_rate.  Evaluating
the code on `sceneRotX` (aspect 1, far 100): the camera's `aspect`,
`projection` and `view` fields come back unchanged (`Camera::update`
would have stored the new aspect, as the fourth conjunct shows), and the
uniform is instead overwritten with the hard-coded
`perspective(0.1, 5, winW/winH, 0.75) * look_at((0,1.2,-3) -> origin)`
product, which ignores the camera's own far plane of 100. -/
theorem C2_resize_skips_camera_update :
    ((RendererState.resize opsC stWin 4 3 (some sceneRotX)).2.1.map
        (fun sc => sc.camera.value.aspect)) = some 1 ∧
    ((RendererState.resize opsC stWin 4 3 (some sceneRotX)).2.1.map
        (fun sc => sc.camera.value.projection)) = some camRotX.projection ∧
    ((RendererState.resize opsC stWin 4 3 (some sceneRotX)).2.1.map
        (fun sc => sc.camera.value.view)) = some camRotX.view ∧
    (Camera.update opsC.tanf camRotX camRotX.fov (4 / 3) camRotX.near
        camRotX.far camRotX.speed camRotX.rot_rate).aspect = 4 / 3 ∧
    ((RendererState.resize opsC stWin 4 3 (some sceneRotX)).2.1.map
        (fun sc => sc.camera.value.mesh_camera.view_proj)) =
      some ((perspective_transform opsC.tanf (1 / 10) 5
          ((stWin.winW : ℚ) / (stWin.winH : ℚ)) (3 / 4)).mul
        (look_at_lh opsC.sqrtf ⟨0, 6 / 5, -3⟩ ⟨0, 0, 0⟩ Vec3.unit_y)) ∧
    ((RendererState.resize opsC stWin 4 3 (some sceneRotX)).2.1.map
        (fun sc => sc.camera.value.aspect)) ≠ some ((4 : ℚ) / 3) := by
  refine ⟨rfl, rfl, rfl, rfl, rfl, ?_⟩
  intro h
  have h2 : some (1 : ℚ) = some ((4 : ℚ) / 3) := h
  rw [Option.some_inj] at h2
  norm_num at h2

/-- Claim C8: a resize with a zero width or height changes nothing — the
state (configured flag, surface configuration, depth texture size), the
scene, and the absence of any configure/depth effect are all preserved —
while a subsequent resize with positive dimensions sets the configured
flag and issues the configure-surface and depth-texture effects. -/
theorem C8_zero_resize_is_noop (ops : FloatOps K) (st : RendererState)
    (scene : Option (Scene K)) (width height : Nat) :
    ((width = 0 ∨ height = 0) →
      RendererState.resize ops st width height scene = (st, scene, [])) ∧
    (0 < width → 0 < height →
      (RendererState.resize ops st width height scene).1.is_surface_configured
          = true ∧
      (RendererState.resize ops st width height scene).2.2 =
        [ResizeEffect.configureSurface width height,
         ResizeEffect.createDepthTexture width height]) := by
  constructor
  · intro h
    have hneg : ¬(0 < width ∧ 0 < height) := by omega
    simp only [RendererState.resize]
    rw [if_neg hneg]
  · intro hw hh
    have hpos : 0 < width ∧ 0 < height := ⟨hw, hh⟩
    simp only [RendererState.resize]
    rw [if_pos hpos]
    exact ⟨rfl, rfl⟩

/-- Witness for claim C8: at the concrete unconfigured state `stWin`, a
0x5 resize returns the state, scene and effect list unchanged, and a 4x3
resize configures. -/
theorem C8_witness :
    (RendererState.resize opsW stWin 0 5 (none : Option (Scene ℚ)) =
      (stWin, none, [])) ∧
    ((RendererState.resize opsW stWin 4 3
          (none : Option (Scene ℚ))).1.is_surface_configured = true ∧
      (RendererState.resize opsW stWin 4 3 (none : Option (Scene ℚ))).2.2 =
        [ResizeEffect.configureSurface 4 3,
         ResizeEffect.createDepthTexture 4 3]) :=
  ⟨(C8_zero_resize_is_noop opsW stWin none 0 5).1 (Or.inl rfl),
    (C8_zero_resize_is_noop opsW stWin none 4 3).2 (by norm_num) (by norm_num)⟩

/-- `wgpu::SurfaceError`, the closed error enumeration of the surface
acquire/present path. -/
inductive SurfaceError where
  | timeout
  | outdated
  | lost
  | outOfMemory
  | other
deriving DecidableEq

/-- `RendererState::render` (`src/lib.rs` lines 368-430), abstracted to
its control flow: an unconfigured surface returns `Ok` immediately;
otherwise the result of `surface.get_current_texture()` is propagated by
`?` — every error leaves `render` unchanged, with no internal retry or
reclassification — and on success the sync/draw/submit/present sequence
runs and `Ok` is returned. -/
def RendererState.render (st : RendererState)
    (acquire : Except SurfaceError Unit) : Except SurfaceError Unit :=
  if st.is_surface_configured = false then Except.ok ()
  else
    match acquire with
    | Except.error e => Except.error e
    | Except.ok _ => Except.ok ()

/-- What the event handler decides to do with one event. -/
inductive EventAction where
  | exitLoop
  | continueLoop
  | reconfigureSurface
  | logAndContinue
  | doResize (width height : Nat)
deriving DecidableEq

/-- The window events `App::window_event` dispatches on (the redraw case
carries the result `render` produced for that frame). -/
inductive WindowEvent where
  | closeRequested
  | redrawRequested (render_result : Except SurfaceError Unit)
  | resized (width height : Nat)

/-- `App::window_event` (`src/lib.rs` lines 478-519): close requests exit
the loop; a redraw whose render returned `Outdated` or `Lost` triggers a
reconfiguring resize at the window's current size; ANY other render error
— including `Timeout` and `OutOfMemory` — falls into the catch-all arm,
which logs it and continues; resize events forward to `resize`. -/
def window_event : WindowEvent → EventAction
  | WindowEvent.closeRequested => EventAction.exitLoop
  | WindowEvent.redrawRequested res =>
    match res with
    | Except.ok _ => EventAction.continueLoop
    | Except.error SurfaceError.outdated => EventAction.reconfigureSurface
    | Except.error SurfaceError.lost => EventAction.reconfigureSurface
    | Except.error _ => EventAction.logAndContinue
  | WindowEvent.resized width height => EventAction.doResize width height

/-- Claim C3 (as stated, refuted): the claim says a `Timeout` or
`OutOfMemory` surface error is fatal — surfaced to the caller and not
absorbed.  In the code, the event handler's catch-all arm logs both and
the loop continues: neither error reaches `event_loop.exit()` (which only
a close request does), so they are absorbed exactly like any other
backend error and nothing terminates. -/
theorem C3_counterexample :
    window_event (WindowEvent.redrawRequested
        (Except.error SurfaceError.timeout)) = EventAction.logAndContinue ∧
    window_event (WindowEvent.redrawRequested
        (Except.error SurfaceError.timeout)) ≠ EventAction.exitLoop ∧
    window_event (WindowEvent.redrawRequested
        (Except.error SurfaceError.outOfMemory)) = EventAction.logAndContinue ∧
    window_event (WindowEvent.redrawRequested
        (Except.error SurfaceError.outOfMemory)) ≠ EventAction.exitLoop := by
  decide

/-- Claim C3, amended: on a configured surface, `render` propagates a
`Timeout` or `OutOfMemory` acquire error to its caller unchanged, with no
internal retry and no reconfiguration; the event handler then absorbs it —
logging and continuing, the same treatment as any other
non-`Outdated`/`Lost` error — while only `Outdated` and `Lost` trigger
reconfiguration; no surface error exits the event loop. -/
theorem C3_fatal_errors_are_logged_not_fatal (st : RendererState)
    (h : st.is_surface_configured = true) :
    RendererState.render st (Except.error SurfaceError.timeout) =
      Except.error SurfaceError.timeout ∧
    RendererState.render st (Except.error SurfaceError.outOfMemory) =
      Except.error SurfaceError.outOfMemory ∧
    window_event (WindowEvent.redrawRequested
        (Except.error SurfaceError.timeout)) = EventAction.logAndContinue ∧
    window_event (WindowEvent.redrawRequested
        (Except.error SurfaceError.outOfMemory)) = EventAction.logAndContinue ∧
    window_event (WindowEvent.redrawRequested
        (Except.error SurfaceError.outdated)) = EventAction.reconfigureSurface ∧
    window_event (WindowEvent.redrawRequested
        (Except.error SurfaceError.lost)) = EventAction.reconfigureSurface ∧
    (∀ e : SurfaceError, window_event (WindowEvent.redrawRequested
        (Except.error e)) ≠ EventAction.exitLoop) := by
  refine ⟨?_, ?_, rfl, rfl, rfl, rfl, ?_⟩
  · simp [RendererState.render, h]
  · simp [RendererState.render, h]
  · intro e
    cases e <;> decide

/-- A configured renderer state for the C3 witness. -/
def stConf : RendererState := ⟨2, 1, ⟨2, 1⟩, true, (2, 1)⟩

/-- Witness for the amended claim C3 at the concrete configured state
`stConf`. -/
theorem C3_witness :
    stConf.is_surface_configured = true ∧
    (RendererState.render stConf (Except.error SurfaceError.timeout) =
        Except.error SurfaceError.timeout ∧
      RendererState.render stConf (Except.error SurfaceError.outOfMemory) =
        Except.error SurfaceError.outOfMemory ∧
      window_event (WindowEvent.redrawRequested
          (Except.error SurfaceError.timeout)) = EventAction.logAndContinue ∧
      window_event (WindowEvent.redrawRequested
          (Except.error SurfaceError.outOfMemory)) =
        EventAction.logAndContinue ∧
      window_event (WindowEvent.redrawRequested
          (Except.error SurfaceError.outdated)) =
        EventAction.reconfigureSurface ∧
      window_event (WindowEvent.redrawRequested
          (Except.error SurfaceError.lost)) = EventAction.reconfigureSurface ∧
      (∀ e : SurfaceError, window_event (WindowEvent.redrawRequested
          (Except.error e)) ≠ EventAction.exitLoop)) :=
  ⟨rfl, C3_fatal_errors_are_logged_not_fatal stConf rfl⟩

/-- Claim C10: `Pool::allocate(v)` followed by `Pool::get` at the returned
index is claimed to yield `Some v` both on a fresh push and on free-list
reuse.  Evaluating the code: the fresh-push branch does satisfy this, but
after `delete(0)` on a one-element pool, `allocate 5` returns index `0`
while the slot still holds `none` — the reuse branch of `allocate` never
stores the value, so `get` returns `none`, not `some 5`. -/
theorem C10_pool_allocate_drops_reused_value :
    ((Pool.allocate (⟨[], []⟩ : Pool Nat) 5).1.get
      (Pool.allocate (⟨[], []⟩ : Pool Nat) 5).2 = some 5)
    ∧ ((Pool.delete (⟨[some 7], []⟩ : Pool Nat) 0).allocate 5).2 = 0
    ∧ (((Pool.delete (⟨[some 7], []⟩ : Pool Nat) 0).allocate 5).1.get
        ((Pool.delete (⟨[some 7], []⟩ : Pool Nat) 0).allocate 5).2 = none) := by
  decide

end WgpuSandbox
